import Mathlib

/-!
Shallow embedding of the SlotSwapper backend (src/backend of the
SlotSwapper repository) and verification of its specification.

The data model follows `backend/models.py` and `backend/schemas.py`;
the operations follow `backend/crud.py`.  The SQLAlchemy session is
modelled as an explicit `DB` value holding the three tables as lists;
a raised `HTTPException` (the request handler commits nothing in that
case) is modelled as `Except.error` carrying a tag for the exact
exception raised, with the pre-call state unchanged.  Row ids assigned
by the database are passed in explicitly (`new_id`), as is the
`created_at` timestamp (`now`, for `func.now()`).
-/

namespace SlotSwapper

/-- Status of an event slot, from `models.EventStatus`
(`BUSY`, `SWAPPABLE`, `SWAP_PENDING`).  The spec calls these
`Locked`, `Offered` and `Reserved` respectively. -/
inductive EventStatus
  | BUSY
  | SWAPPABLE
  | SWAP_PENDING
deriving DecidableEq, Repr

/-- Status of a swap request, from `models.SwapStatus`. -/
inductive SwapStatus
  | PENDING
  | ACCEPTED
  | REJECTED
deriving DecidableEq, Repr

/-- A row of the `users` table (`models.User`); the password hash is
irrelevant to every claim and omitted. -/
structure User where
  id : Nat
  name : String
  email : String
deriving DecidableEq, Repr

/-- A row of the `events` table (`models.Event`).  Timestamps are
modelled as integers. -/
structure Event where
  id : Nat
  title : String
  start_time : Int
  end_time : Int
  status : EventStatus
  owner_id : Nat
deriving DecidableEq, Repr

/-- A row of the `swap_requests` table (`models.SwapRequest`). -/
structure SwapRequest where
  id : Nat
  status : SwapStatus
  created_at : Int
  requester_id : Nat
  responder_id : Nat
  my_slot_id : Nat
  their_slot_id : Nat
deriving DecidableEq, Repr

/-- The database state: the three tables, each as a list of rows in
insertion order. -/
structure DB where
  users : List User
  events : List Event
  swap_requests : List SwapRequest
deriving DecidableEq, Repr

/-- The exceptions the crud layer can raise.  The first seven tag the
`HTTPException(status_code, detail)` calls in `crud.py`; the spec names
them `SlotNotFound`, `NotOwner`, `SelfTrade`, `SlotNotTradeable`,
`ProposalNotFound`, `NotAuthorized`, `AlreadyActioned`, plus the two
authorization errors of the event endpoints.  `foreignKeyViolation` is
the `IntegrityError` PostgreSQL (`database.py` uses a `postgresql://`
engine) raises at commit when a `DELETE` would break the non-null
foreign keys `swap_requests.my_slot_id` / `swap_requests.their_slot_id`
declared in `models.py`. -/
inductive ApiError
  | slotNotFound
  | notOwner
  | selfTrade
  | slotNotTradeable
  | proposalNotFound
  | notAuthorized
  | alreadyActioned
  | notAuthorizedEventEdit
  | notAuthorizedEventDelete
  | foreignKeyViolation
deriving DecidableEq, Repr

/-- HTTP status code of each exception, as raised in `crud.py`. -/
def ApiError.statusCode : ApiError → Nat
  | .slotNotFound => 404
  | .notOwner => 403
  | .selfTrade => 400
  | .slotNotTradeable => 400
  | .proposalNotFound => 404
  | .notAuthorized => 403
  | .alreadyActioned => 400
  | .notAuthorizedEventEdit => 403
  | .notAuthorizedEventDelete => 403
  | .foreignKeyViolation => 500

/-- Input schema `schemas.EventCreate`: only title, start and end.
There is no status field, so a caller cannot choose a status at
creation time. -/
structure EventCreate where
  title : String
  start_time : Int
  end_time : Int
deriving DecidableEq, Repr

/-- Input schema `schemas.EventUpdate`: all fields optional; a `none`
field was not sent and is left unchanged (`exclude_unset=True`). -/
structure EventUpdate where
  title : Option String := none
  start_time : Option Int := none
  end_time : Option Int := none
  status : Option EventStatus := none
deriving DecidableEq, Repr

/-- Input schema `schemas.SwapRequestCreate`. -/
structure SwapRequestCreate where
  my_slot_id : Nat
  their_slot_id : Nat
deriving DecidableEq, Repr

/-- Response schema `schemas.MarketplaceSlot`: an event plus its
owner's display name. -/
structure MarketplaceSlot where
  id : Nat
  title : String
  start_time : Int
  end_time : Int
  status : EventStatus
  owner_id : Nat
  owner_name : String
deriving DecidableEq, Repr

/-- Response schema `schemas.SwapRequestDetails`: a swap request with
both parties' names and both slots' summary fields denormalized. -/
structure SwapRequestDetails where
  id : Nat
  status : SwapStatus
  created_at : Int
  requester_id : Nat
  requester_name : String
  responder_id : Nat
  responder_name : String
  my_slot_id : Nat
  my_slot_title : String
  my_slot_start : Int
  my_slot_end : Int
  their_slot_id : Nat
  their_slot_title : String
  their_slot_start : Int
  their_slot_end : Int
deriving DecidableEq, Repr

/-- `crud.get_user`: first row of `users` with the given id. -/
def get_user (db : DB) (user_id : Nat) : Option User :=
  db.users.find? (fun u => u.id == user_id)

/-- `crud.get_event`: first row of `events` with the given id. -/
def get_event (db : DB) (event_id : Nat) : Option Event :=
  db.events.find? (fun e => e.id == event_id)

/-- `crud.get_swap_request`: first row of `swap_requests` with the
given id. -/
def get_swap_request (db : DB) (request_id : Nat) : Option SwapRequest :=
  db.swap_requests.find? (fun r => r.id == request_id)

/-- An SQL `UPDATE events ... WHERE id = slot_id`: rewrite the row(s)
with the given primary key, leave every other row unchanged. -/
def setSlot (events : List Event) (slot_id : Nat) (f : Event → Event) : List Event :=
  events.map (fun e => if e.id == slot_id then f e else e)

/-- `crud.create_event`: build an `Event` from the `EventCreate`
fields plus `owner_id = user_id`; `models.Event.status` defaults to
`BUSY`, and `EventCreate` carries no status, so the new row's status
is always `BUSY`.  `new_id` is the id the database assigns on insert. -/
def create_event (db : DB) (event : EventCreate) (user_id : Nat) (new_id : Nat) :
    Event × DB :=
  let db_event : Event :=
    { id := new_id
      title := event.title
      start_time := event.start_time
      end_time := event.end_time
      status := EventStatus.BUSY
      owner_id := user_id }
  (db_event, { db with events := db.events ++ [db_event] })

/-- Application of `model_dump(exclude_unset=True)` plus the `setattr`
loop of `crud.update_event` to one event row. -/
def applyEventUpdate (e : Event) (u : EventUpdate) : Event :=
  { e with
      title := u.title.getD e.title
      start_time := u.start_time.getD e.start_time
      end_time := u.end_time.getD e.end_time
      status := u.status.getD e.status }

/-- `crud.update_event`: returns `none` when the event does not exist,
raises 403 when the caller is not the owner, otherwise applies the
requested fields — with no check whatsoever of the event's current
status. -/
def update_event (db : DB) (event_id : Nat) (event_data : EventUpdate) (user_id : Nat) :
    Except ApiError (Option Event × DB) :=
  match get_event db event_id with
  | none => .ok (none, db)
  | some db_event =>
    if db_event.owner_id ≠ user_id then
      .error .notAuthorizedEventEdit
    else
      .ok (some (applyEventUpdate db_event event_data),
           { db with events := setSlot db.events event_id (fun e => applyEventUpdate e event_data) })

/-- Does any `swap_requests` row reference this event id?  This is the
condition under which PostgreSQL rejects `DELETE FROM events` at
commit: `models.py` declares `my_slot_id` and `their_slot_id` as
non-null foreign keys to `events.id` with no `ON DELETE` action. -/
def eventReferenced (db : DB) (event_id : Nat) : Bool :=
  db.swap_requests.any (fun r => r.my_slot_id == event_id || r.their_slot_id == event_id)

/-- `crud.delete_event`: returns `none` when the event does not exist,
raises 403 when the caller is not the owner, and otherwise issues the
delete; the commit fails with a foreign-key `IntegrityError` (nothing
is removed) when any swap request references the row, per the
constraints in `models.py` enforced by the PostgreSQL engine of
`database.py`. -/
def delete_event (db : DB) (event_id : Nat) (user_id : Nat) :
    Except ApiError (Option Event × DB) :=
  match get_event db event_id with
  | none => .ok (none, db)
  | some db_event =>
    if db_event.owner_id ≠ user_id then
      .error .notAuthorizedEventDelete
    else if eventReferenced db event_id then
      .error .foreignKeyViolation
    else
      .ok (some db_event, { db with events := db.events.filter (fun e => e.id ≠ event_id) })

/-- Projection of an event joined with its owner row into a
`MarketplaceSlot` (the comprehension at the end of
`crud.get_marketplace_slots`). -/
def mkMarketplaceSlot (e : Event) (owner : User) : MarketplaceSlot :=
  { id := e.id
    title := e.title
    start_time := e.start_time
    end_time := e.end_time
    status := e.status
    owner_id := e.owner_id
    owner_name := owner.name }

/-- `crud.get_marketplace_slots`: events with status `SWAPPABLE` and a
different owner, inner-joined with `users` (an event whose owner row is
missing drops out of the join), each projected together with the
owner's name.  Read-only: no `DB` is produced. -/
def get_marketplace_slots (db : DB) (user_id : Nat) : List MarketplaceSlot :=
  (db.events.filter
      (fun e => e.status == EventStatus.SWAPPABLE && e.owner_id != user_id)).filterMap
    (fun e => (get_user db e.owner_id).map (fun owner => mkMarketplaceSlot e owner))

/-- `crud.create_swap_request`: the four validations in source order,
then creation of the `PENDING` request (its `responder_id` is the
current owner of `their_slot`) and the two status writes setting both
slots to `SWAP_PENDING`, all committed together.  Note that
`my_slot.status` is never checked.  `new_id` is the id the database
assigns, `now` the `created_at` timestamp. -/
def create_swap_request (db : DB) (request_data : SwapRequestCreate)
    (requester_id : Nat) (new_id : Nat) (now : Int) :
    Except ApiError (SwapRequest × DB) :=
  match get_event db request_data.my_slot_id, get_event db request_data.their_slot_id with
  | some my_slot, some their_slot =>
    if my_slot.owner_id ≠ requester_id then
      .error .notOwner
    else if their_slot.owner_id = requester_id then
      .error .selfTrade
    else if their_slot.status ≠ EventStatus.SWAPPABLE then
      .error .slotNotTradeable
    else
      let db_request : SwapRequest :=
        { id := new_id
          status := SwapStatus.PENDING
          created_at := now
          requester_id := requester_id
          responder_id := their_slot.owner_id
          my_slot_id := my_slot.id
          their_slot_id := their_slot.id }
      let events1 :=
        setSlot (setSlot db.events my_slot.id (fun e => { e with status := EventStatus.SWAP_PENDING }))
          their_slot.id (fun e => { e with status := EventStatus.SWAP_PENDING })
      .ok (db_request,
           { db with events := events1, swap_requests := db.swap_requests ++ [db_request] })
  | _, _ => .error .slotNotFound

/-- Resolution of the four relationships of one swap request and
construction of a `schemas.SwapRequestDetails`, following the loop
body of `crud._get_swap_request_details`; `none` when a referenced
row is missing (the Python would fail on the dangling relationship). -/
def detailsOf (db : DB) (req : SwapRequest) : Option SwapRequestDetails :=
  match get_user db req.requester_id, get_user db req.responder_id,
      get_event db req.my_slot_id, get_event db req.their_slot_id with
  | some requester, some responder, some my_slot, some their_slot =>
    some
      { id := req.id
        status := req.status
        created_at := req.created_at
        requester_id := requester.id
        requester_name := requester.name
        responder_id := responder.id
        responder_name := responder.name
        my_slot_id := my_slot.id
        my_slot_title := my_slot.title
        my_slot_start := my_slot.start_time
        my_slot_end := my_slot.end_time
        their_slot_id := their_slot.id
        their_slot_title := their_slot.title
        their_slot_start := their_slot.start_time
        their_slot_end := their_slot.end_time }
  | _, _, _, _ => none

/-- `crud._get_swap_request_details` over a list of requests: all
details, or `none` as soon as one request has a dangling reference. -/
def detailsList (db : DB) : List SwapRequest → Option (List SwapRequestDetails)
  | [] => some []
  | r :: rs =>
    match detailsOf db r, detailsList db rs with
    | some d, some ds => some (d :: ds)
    | _, _ => none

/-- Comparison used to model `order_by(created_at.desc())`: `a` may
come before `b` when its timestamp is the later one. -/
def createdDesc (a b : SwapRequest) : Bool :=
  decide (b.created_at ≤ a.created_at)

/-- `crud.get_incoming_requests`: requests whose `responder_id` is the
user, newest first, each denormalized via
`crud._get_swap_request_details`. -/
def get_incoming_requests (db : DB) (user_id : Nat) :
    Option (List SwapRequestDetails) :=
  detailsList db
    ((db.swap_requests.filter (fun r => r.responder_id == user_id)).mergeSort createdDesc)

/-- `crud.get_outgoing_requests`: requests whose `requester_id` is the
user, newest first, each denormalized via
`crud._get_swap_request_details`. -/
def get_outgoing_requests (db : DB) (user_id : Nat) :
    Option (List SwapRequestDetails) :=
  detailsList db
    ((db.swap_requests.filter (fun r => r.requester_id == user_id)).mergeSort createdDesc)

/-- `crud.respond_to_swap_request`: the three validations in source
order, then — in the mutation order of the source — for accept: swap
the two owners (their slot first) and set both statuses to `BUSY`; for
reject: set both statuses to `SWAPPABLE`; and write the request's new
status. -/
def respond_to_swap_request (db : DB) (request_id : Nat) (accept : Bool) (user_id : Nat) :
    Except ApiError (SwapRequest × DB) :=
  match get_swap_request db request_id with
  | none => .error .proposalNotFound
  | some db_request =>
    if db_request.responder_id ≠ user_id then
      .error .notAuthorized
    else if db_request.status ≠ SwapStatus.PENDING then
      .error .alreadyActioned
    else
      let updated : SwapRequest :=
        { db_request with
            status := if accept then SwapStatus.ACCEPTED else SwapStatus.REJECTED }
      let events1 :=
        if accept then
          setSlot (setSlot (setSlot (setSlot db.events
                db_request.their_slot_id (fun e => { e with owner_id := db_request.requester_id }))
              db_request.my_slot_id (fun e => { e with owner_id := db_request.responder_id }))
            db_request.their_slot_id (fun e => { e with status := EventStatus.BUSY }))
            db_request.my_slot_id (fun e => { e with status := EventStatus.BUSY })
        else
          setSlot (setSlot db.events
              db_request.their_slot_id (fun e => { e with status := EventStatus.SWAPPABLE }))
            db_request.my_slot_id (fun e => { e with status := EventStatus.SWAPPABLE })
      let requests1 :=
        db.swap_requests.map (fun r => if r.id == request_id then updated else r)
      .ok (updated, { db with events := events1, swap_requests := requests1 })

/-- One state-mutating operation of the backend, with every input a
parameter (ids assigned by the database included). -/
inductive Op
  | createEvent (ec : EventCreate) (user_id : Nat) (new_id : Nat)
  | updateEvent (event_id : Nat) (eu : EventUpdate) (user_id : Nat)
  | deleteEvent (event_id : Nat) (user_id : Nat)
  | createSwap (rd : SwapRequestCreate) (requester_id : Nat) (new_id : Nat) (now : Int)
  | respondSwap (request_id : Nat) (accept : Bool) (user_id : Nat)
deriving DecidableEq, Repr

/-- Post-state of one operation: the new database on success, the
unchanged database when the operation raised (the handler commits
nothing in that case). -/
def applyOp (db : DB) : Op → DB
  | .createEvent ec uid nid => (create_event db ec uid nid).2
  | .updateEvent eid eu uid =>
    match update_event db eid eu uid with
    | .ok (_, db2) => db2
    | .error _ => db
  | .deleteEvent eid uid =>
    match delete_event db eid uid with
    | .ok (_, db2) => db2
    | .error _ => db
  | .createSwap rd rqid nid now =>
    match create_swap_request db rd rqid nid now with
    | .ok (_, db2) => db2
    | .error _ => db
  | .respondSwap rid acc uid =>
    match respond_to_swap_request db rid acc uid with
    | .ok (_, db2) => db2
    | .error _ => db

/-- Post-state of a sequence of operations. -/
def applyOps (db : DB) (ops : List Op) : DB :=
  ops.foldl applyOp db

/-- Number of `PENDING` swap requests referencing a slot id as either
side of the trade. -/
def pendingRefCount (db : DB) (slot_id : Nat) : Nat :=
  db.swap_requests.countP
    (fun r => r.status == SwapStatus.PENDING &&
      (r.my_slot_id == slot_id || r.their_slot_id == slot_id))

/-- The spec's slot/proposal invariant: a slot is `SWAP_PENDING`
(Reserved) iff exactly one `PENDING` proposal references it, and no
slot is referenced by two simultaneously pending proposals — i.e. the
pending reference count of every slot is 1 when it is `SWAP_PENDING`
and 0 otherwise. -/
def slotInvariant (db : DB) : Prop :=
  ∀ e ∈ db.events,
    pendingRefCount db e.id = if e.status = EventStatus.SWAP_PENDING then 1 else 0

instance slotInvariantDecidable (db : DB) : Decidable (slotInvariant db) :=
  inferInstanceAs (Decidable (∀ e ∈ db.events,
    pendingRefCount db e.id = if e.status = EventStatus.SWAP_PENDING then 1 else 0))

/-- Finding a row by key in a key-preserving rewrite of a table gives
the rewrite of the row found in the original table. -/
theorem find?_key_map {α : Type} (key : α → Nat) (g : α → α) (l : List α)
    (hg : ∀ x, key (g x) = key x) (t : Nat) :
    (l.map g).find? (fun x => key x == t) = (l.find? (fun x => key x == t)).map g := by
  rw [List.find?_map]
  have hp : ((fun x => key x == t) ∘ g) = (fun x => key x == t) := by
    funext x
    simp [Function.comp, hg]
  rw [hp]

/-- Looking an event up after `setSlot` with a status- or
owner-rewriting function: the found row is the rewrite of the
originally found row. -/
theorem find?_setSlot (l : List Event) (sid : Nat) (f : Event → Event)
    (hf : ∀ e, (f e).id = e.id) (t : Nat) :
    (setSlot l sid f).find? (fun e => e.id == t)
      = (l.find? (fun e => e.id == t)).map (fun e => if e.id == sid then f e else e) := by
  unfold setSlot
  exact find?_key_map Event.id (fun e => if e.id == sid then f e else e) l
    (by
      intro x
      by_cases h : (x.id == sid) = true <;> simp [h, hf]) t


/-- Encoding of `Except` as a sum, to decide equality of operation
results. -/
def exceptToSum {ε α : Type} : Except ε α → ε ⊕ α
  | .error e => .inl e
  | .ok a => .inr a

instance exceptDecEq {ε α : Type} [DecidableEq ε] [DecidableEq α] :
    DecidableEq (Except ε α) := fun a b =>
  decidable_of_iff (exceptToSum a = exceptToSum b)
    (by cases a <;> cases b <;> simp [exceptToSum])

/-- C6: `create_swap_request` checks its preconditions in source order
with first failure winning — a missing slot gives `slotNotFound` (404),
then a `my_slot` not owned by the requester gives `notOwner` (403),
then a `their_slot` owned by the requester gives `selfTrade` (400),
then a `their_slot` not `SWAPPABLE` gives `slotNotTradeable` (400) —
and on every failure the database is unchanged. -/
theorem C6_propose_error_order (db : DB) (rd : SwapRequestCreate)
    (requester_id new_id : Nat) (now : Int) :
    ((get_event db rd.my_slot_id = none ∨ get_event db rd.their_slot_id = none) →
      create_swap_request db rd requester_id new_id now = .error .slotNotFound) ∧
    (∀ my their, get_event db rd.my_slot_id = some my →
      get_event db rd.their_slot_id = some their →
      my.owner_id ≠ requester_id →
      create_swap_request db rd requester_id new_id now = .error .notOwner) ∧
    (∀ my their, get_event db rd.my_slot_id = some my →
      get_event db rd.their_slot_id = some their →
      my.owner_id = requester_id → their.owner_id = requester_id →
      create_swap_request db rd requester_id new_id now = .error .selfTrade) ∧
    (∀ my their, get_event db rd.my_slot_id = some my →
      get_event db rd.their_slot_id = some their →
      my.owner_id = requester_id → their.owner_id ≠ requester_id →
      their.status ≠ EventStatus.SWAPPABLE →
      create_swap_request db rd requester_id new_id now = .error .slotNotTradeable) ∧
    (∀ err, create_swap_request db rd requester_id new_id now = .error err →
      applyOp db (.createSwap rd requester_id new_id now) = db) := by
  refine ⟨?_, ?_, ?_, ?_, ?_⟩
  · rintro (h | h) <;> unfold create_swap_request <;> rw [h]
    cases get_event db rd.my_slot_id <;> rfl
  · intro my their hmy htheir hown
    unfold create_swap_request
    rw [hmy, htheir]
    simp [hown]
  · intro my their hmy htheir hown hself
    unfold create_swap_request
    rw [hmy, htheir]
    simp [hown, hself]
  · intro my their hmy htheir hown hnself hstat
    unfold create_swap_request
    rw [hmy, htheir]
    simp [hown, hnself, hstat]
  · intro err herr
    simp only [applyOp]
    rw [herr]

def w6db : DB :=
  { users := [{ id := 1, name := "A", email := "a" }, { id := 2, name := "B", email := "b" }]
    events := [{ id := 1, title := "S1", start_time := 0, end_time := 1,
                 status := EventStatus.BUSY, owner_id := 1 },
               { id := 2, title := "S2", start_time := 2, end_time := 3,
                 status := EventStatus.BUSY, owner_id := 2 }]
    swap_requests := [] }

theorem C6_witness :
    create_swap_request w6db { my_slot_id := 9, their_slot_id := 2 } 1 5 0 = .error .slotNotFound ∧
    create_swap_request w6db { my_slot_id := 2, their_slot_id := 1 } 1 5 0 = .error .notOwner ∧
    create_swap_request w6db { my_slot_id := 1, their_slot_id := 1 } 1 5 0 = .error .selfTrade ∧
    create_swap_request w6db { my_slot_id := 1, their_slot_id := 2 } 1 5 0 = .error .slotNotTradeable ∧
    applyOp w6db (.createSwap { my_slot_id := 1, their_slot_id := 2 } 1 5 0) = w6db := by
  have h4 := (C6_propose_error_order w6db { my_slot_id := 1, their_slot_id := 2 } 1 5 0).2.2.2.1
    { id := 1, title := "S1", start_time := 0, end_time := 1,
      status := EventStatus.BUSY, owner_id := 1 }
    { id := 2, title := "S2", start_time := 2, end_time := 3,
      status := EventStatus.BUSY, owner_id := 2 }
    (by decide) (by decide) (by decide) (by decide) (by decide)
  refine ⟨?_, ?_, ?_, h4, ?_⟩
  · exact (C6_propose_error_order w6db { my_slot_id := 9, their_slot_id := 2 } 1 5 0).1
      (Or.inl (by decide))
  · exact (C6_propose_error_order w6db { my_slot_id := 2, their_slot_id := 1 } 1 5 0).2.1
      { id := 2, title := "S2", start_time := 2, end_time := 3,
        status := EventStatus.BUSY, owner_id := 2 }
      { id := 1, title := "S1", start_time := 0, end_time := 1,
        status := EventStatus.BUSY, owner_id := 1 }
      (by decide) (by decide) (by decide)
  · exact (C6_propose_error_order w6db { my_slot_id := 1, their_slot_id := 1 } 1 5 0).2.2.1
      { id := 1, title := "S1", start_time := 0, end_time := 1,
        status := EventStatus.BUSY, owner_id := 1 }
      { id := 1, title := "S1", start_time := 0, end_time := 1,
        status := EventStatus.BUSY, owner_id := 1 }
      (by decide) (by decide) (by decide) (by decide)
  · exact (C6_propose_error_order w6db { my_slot_id := 1, their_slot_id := 2 } 1 5 0).2.2.2.2
      .slotNotTradeable h4


/-- Inversion of a successful `create_swap_request`: all four
preconditions held and the result has exactly the shape built in the
source — a `PENDING` request whose responder is the current owner of
`their_slot`, appended to the ledger, with both slots set to
`SWAP_PENDING`. -/
theorem create_swap_ok_shape (db : DB) (rd : SwapRequestCreate) (rqid nid : Nat) (now : Int)
    (x : SwapRequest) (db2 : DB)
    (h : create_swap_request db rd rqid nid now = .ok (x, db2)) :
    ∃ my their, get_event db rd.my_slot_id = some my ∧
      get_event db rd.their_slot_id = some their ∧
      my.owner_id = rqid ∧ their.owner_id ≠ rqid ∧ their.status = EventStatus.SWAPPABLE ∧
      x = { id := nid, status := SwapStatus.PENDING, created_at := now, requester_id := rqid,
            responder_id := their.owner_id, my_slot_id := my.id, their_slot_id := their.id } ∧
      db2.users = db.users ∧
      db2.events = setSlot
        (setSlot db.events my.id (fun e => { e with status := EventStatus.SWAP_PENDING }))
        their.id (fun e => { e with status := EventStatus.SWAP_PENDING }) ∧
      db2.swap_requests = db.swap_requests ++ [x] := by
  unfold create_swap_request at h
  split at h
  · split at h
    · exact Except.noConfusion h
    · split at h
      · exact Except.noConfusion h
      · split at h
        · exact Except.noConfusion h
        · cases h
          rename_i my their hmy htheir hown hself hstat
          exact ⟨my, their, hmy, htheir, not_not.mp hown, hself, not_not.mp hstat,
            rfl, rfl, rfl, rfl⟩
  · exact Except.noConfusion h

/-- Inversion of a successful `respond_to_swap_request`: the request
existed, the caller was its responder, it was `PENDING`, and the
result is the request with its terminal status written, the ledger
rewritten at that id, and the slots rewritten in the mutation order of
the source. -/
theorem respond_ok_shape (db : DB) (rid : Nat) (acc : Bool) (uid : Nat)
    (x : SwapRequest) (db2 : DB)
    (h : respond_to_swap_request db rid acc uid = .ok (x, db2)) :
    ∃ r, get_swap_request db rid = some r ∧
      r.responder_id = uid ∧ r.status = SwapStatus.PENDING ∧
      x = { r with status := if acc then SwapStatus.ACCEPTED else SwapStatus.REJECTED } ∧
      db2.users = db.users ∧
      db2.events = (if acc then
          setSlot (setSlot (setSlot (setSlot db.events
                r.their_slot_id (fun e => { e with owner_id := r.requester_id }))
              r.my_slot_id (fun e => { e with owner_id := r.responder_id }))
            r.their_slot_id (fun e => { e with status := EventStatus.BUSY }))
            r.my_slot_id (fun e => { e with status := EventStatus.BUSY })
        else
          setSlot (setSlot db.events
              r.their_slot_id (fun e => { e with status := EventStatus.SWAPPABLE }))
            r.my_slot_id (fun e => { e with status := EventStatus.SWAPPABLE })) ∧
      db2.swap_requests = db.swap_requests.map (fun q => if q.id == rid then x else q) := by
  unfold respond_to_swap_request at h
  split at h
  · exact Except.noConfusion h
  · split at h
    · exact Except.noConfusion h
    · split at h
      · exact Except.noConfusion h
      · cases h
        rename_i r hr hresp hpend
        exact ⟨r, hr, not_not.mp hresp, not_not.mp hpend, rfl, rfl, rfl, rfl⟩

/-- Inversion of `update_event`: a `some` result means the event
existed and was owned by the caller, and the new state rewrites only
that event row, by `applyEventUpdate`. -/
theorem update_event_ok_shape (db : DB) (eid : Nat) (eu : EventUpdate) (uid : Nat)
    (x : Option Event) (db2 : DB)
    (h : update_event db eid eu uid = .ok (x, db2)) :
    (x = none ∧ db2 = db ∧ get_event db eid = none) ∨
    (∃ e, get_event db eid = some e ∧ e.owner_id = uid ∧
      x = some (applyEventUpdate e eu) ∧
      db2.users = db.users ∧ db2.swap_requests = db.swap_requests ∧
      db2.events = setSlot db.events eid (fun q => applyEventUpdate q eu)) := by
  unfold update_event at h
  split at h
  · cases h
    rename_i hnone
    exact Or.inl ⟨rfl, rfl, hnone⟩
  · split at h
    · exact Except.noConfusion h
    · cases h
      rename_i e he hown
      exact Or.inr ⟨e, he, not_not.mp hown, rfl, rfl, rfl, rfl⟩

/-- Inversion of `delete_event`: a `some` result means the event
existed, was owned by the caller and was referenced by no swap
request, and the new state removes exactly that row; a `none` result
leaves the state unchanged. -/
theorem delete_event_ok_shape (db : DB) (eid : Nat) (uid : Nat)
    (x : Option Event) (db2 : DB)
    (h : delete_event db eid uid = .ok (x, db2)) :
    (x = none ∧ db2 = db ∧ get_event db eid = none) ∨
    (∃ e, get_event db eid = some e ∧ e.owner_id = uid ∧
      eventReferenced db eid = false ∧ x = some e ∧
      db2.users = db.users ∧ db2.swap_requests = db.swap_requests ∧
      db2.events = db.events.filter (fun q => q.id ≠ eid)) := by
  unfold delete_event at h
  split at h
  · cases h
    rename_i hnone
    exact Or.inl ⟨rfl, rfl, hnone⟩
  · split at h
    · exact Except.noConfusion h
    · split at h
      · exact Except.noConfusion h
      · cases h
        rename_i e he hown href
        exact Or.inr ⟨e, he, not_not.mp hown, Bool.of_not_eq_true href, rfl, rfl, rfl, rfl⟩


/-- A swap request whose status has left `PENDING` is returned
unchanged by the lookup after any single operation: no operation
rewrites a non-pending request (respond refuses with
`alreadyActioned`), none deletes one. -/
theorem terminal_request_stable (db : DB) (rid : Nat) (r : SwapRequest)
    (hfind : get_swap_request db rid = some r)
    (hterm : r.status ≠ SwapStatus.PENDING) (op : Op) :
    get_swap_request (applyOp db op) rid = some r := by
  cases op with
  | createEvent ec uid nid =>
    simpa [applyOp, create_event, get_swap_request] using hfind
  | updateEvent eid eu uid =>
    simp only [applyOp]
    split
    · rename_i x db2 heq
      rcases update_event_ok_shape db eid eu uid x db2 heq with ⟨-, rfl, -⟩ | ⟨e, -, -, -, -, hs, -⟩
      · exact hfind
      · unfold get_swap_request
        rw [hs]
        exact hfind
    · exact hfind
  | deleteEvent eid uid =>
    simp only [applyOp]
    split
    · rename_i x db2 heq
      rcases delete_event_ok_shape db eid uid x db2 heq with ⟨-, rfl, -⟩ | ⟨e, -, -, -, -, -, hs, -⟩
      · exact hfind
      · unfold get_swap_request
        rw [hs]
        exact hfind
    · exact hfind
  | createSwap rd rqid nid now =>
    simp only [applyOp]
    split
    · rename_i x db2 heq
      obtain ⟨my, their, -, -, -, -, -, -, -, -, hs⟩ :=
        create_swap_ok_shape db rd rqid nid now x db2 heq
      unfold get_swap_request at hfind ⊢
      rw [hs, List.find?_append, hfind]
      rfl
    · exact hfind
  | respondSwap rid2 acc uid =>
    simp only [applyOp]
    split
    · rename_i x db2 heq
      obtain ⟨q, hq, hresp, hpend, hx, hu, hev, hs⟩ := respond_ok_shape db rid2 acc uid x db2 heq
      have hqid : q.id = rid2 := by simpa using List.find?_some hq
      have hrid : r.id = rid := by simpa using List.find?_some hfind
      have hgid : ∀ s : SwapRequest, ((fun q2 => if q2.id == rid2 then x else q2) s).id = s.id := by
        intro s
        by_cases hcase : (s.id == rid2) = true
        · have h2 : s.id = rid2 := by simpa using hcase
          have hxid : x.id = q.id := by rw [hx]
          simp [hcase, hxid, hqid, h2]
        · simp [hcase]
      unfold get_swap_request at hfind ⊢
      rw [hs, find?_key_map SwapRequest.id _ _ hgid rid, hfind]
      have hne : (r.id == rid2) = false := by
        by_contra hc
        have hc2 : r.id = rid2 := by
          simpa using Bool.of_not_eq_false hc
        unfold get_swap_request at hq
        rw [← hc2, hrid, hfind] at hq
        have hrq : r = q := by injection hq
        rw [hrq] at hterm
        exact hterm hpend
      show some (if (r.id == rid2) = true then x else r) = some r
      rw [hne]
      simp
    · exact hfind

/-- C7: `respond_to_swap_request` checks its preconditions in source
order — missing request gives `proposalNotFound` (404), then a caller
other than the responder gives `notAuthorized` (403), then a
non-pending request gives `alreadyActioned` (400) — every failure
leaves the database unchanged, and a request whose status has left
`PENDING` is never changed again by any sequence of operations. -/
theorem C7_respond_error_order_terminal (db : DB) (request_id : Nat) (accept : Bool)
    (user_id : Nat) :
    (get_swap_request db request_id = none →
      respond_to_swap_request db request_id accept user_id = .error .proposalNotFound) ∧
    (∀ r, get_swap_request db request_id = some r → r.responder_id ≠ user_id →
      respond_to_swap_request db request_id accept user_id = .error .notAuthorized) ∧
    (∀ r, get_swap_request db request_id = some r → r.responder_id = user_id →
      r.status ≠ SwapStatus.PENDING →
      respond_to_swap_request db request_id accept user_id = .error .alreadyActioned) ∧
    (∀ err, respond_to_swap_request db request_id accept user_id = .error err →
      applyOp db (.respondSwap request_id accept user_id) = db) ∧
    (∀ r, get_swap_request db request_id = some r → r.status ≠ SwapStatus.PENDING →
      ∀ ops : List Op, get_swap_request (applyOps db ops) request_id = some r) := by
  refine ⟨?_, ?_, ?_, ?_, ?_⟩
  · intro h
    unfold respond_to_swap_request
    rw [h]
  · intro r hr hresp
    unfold respond_to_swap_request
    rw [hr]
    simp [hresp]
  · intro r hr hresp hpend
    unfold respond_to_swap_request
    rw [hr]
    simp [hresp, hpend]
  · intro err herr
    simp only [applyOp]
    rw [herr]
  · intro r hr hterm ops
    induction ops generalizing db with
    | nil => exact hr
    | cons op ops ih =>
      exact ih (applyOp db op) (terminal_request_stable db request_id r hr hterm op)

def w7db : DB :=
  { users := [{ id := 1, name := "A", email := "a" }, { id := 2, name := "B", email := "b" }]
    events := [{ id := 1, title := "S1", start_time := 0, end_time := 1,
                 status := EventStatus.BUSY, owner_id := 1 },
               { id := 2, title := "S2", start_time := 2, end_time := 3,
                 status := EventStatus.SWAPPABLE, owner_id := 2 }]
    swap_requests := [{ id := 10, status := SwapStatus.ACCEPTED, created_at := 0,
                        requester_id := 1, responder_id := 2,
                        my_slot_id := 1, their_slot_id := 2 }] }

def w7req : SwapRequest :=
  { id := 10, status := SwapStatus.ACCEPTED, created_at := 0,
    requester_id := 1, responder_id := 2, my_slot_id := 1, their_slot_id := 2 }

theorem C7_witness :
    respond_to_swap_request w7db 99 true 2 = .error .proposalNotFound ∧
    respond_to_swap_request w7db 10 true 1 = .error .notAuthorized ∧
    respond_to_swap_request w7db 10 true 2 = .error .alreadyActioned ∧
    applyOp w7db (.respondSwap 10 true 2) = w7db ∧
    get_swap_request
      (applyOps w7db [.createSwap { my_slot_id := 1, their_slot_id := 2 } 1 11 5,
                      .respondSwap 11 false 2,
                      .updateEvent 1 { status := some EventStatus.SWAPPABLE } 1]) 10
      = some w7req := by
  have h3 := (C7_respond_error_order_terminal w7db 10 true 2).2.2.1 w7req
    (by decide) (by decide) (by decide)
  refine ⟨?_, ?_, h3, ?_, ?_⟩
  · exact (C7_respond_error_order_terminal w7db 99 true 2).1 (by decide)
  · exact (C7_respond_error_order_terminal w7db 10 true 1).2.1 w7req (by decide) (by decide)
  · exact (C7_respond_error_order_terminal w7db 10 true 2).2.2.2.1 .alreadyActioned h3
  · exact (C7_respond_error_order_terminal w7db 10 true 2).2.2.2.2 w7req
      (by decide) (by decide) _



/-- Writing a status leaves an event's id unchanged. -/
theorem setStatus_id (st : EventStatus) :
    ∀ e : Event, ({ e with status := st } : Event).id = e.id :=
  fun _ => rfl

/-- Writing an owner leaves an event's id unchanged. -/
theorem setOwner_id (o : Nat) :
    ∀ e : Event, ({ e with owner_id := o } : Event).id = e.id :=
  fun _ => rfl


theorem create_swap_success (db : DB) (rd : SwapRequestCreate)
    (requester_id new_id : Nat) (now : Int) (my their : Event)
    (hmy : get_event db rd.my_slot_id = some my)
    (htheir : get_event db rd.their_slot_id = some their)
    (hown : my.owner_id = requester_id)
    (hnotself : their.owner_id ≠ requester_id)
    (hoffered : their.status = EventStatus.SWAPPABLE) :
    create_swap_request db rd requester_id new_id now =
      .ok ({ id := new_id, status := SwapStatus.PENDING, created_at := now,
             requester_id := requester_id, responder_id := their.owner_id,
             my_slot_id := my.id, their_slot_id := their.id },
           { db with
               events := setSlot
                 (setSlot db.events my.id (fun e => { e with status := EventStatus.SWAP_PENDING }))
                 their.id (fun e => { e with status := EventStatus.SWAP_PENDING })
               swap_requests := db.swap_requests ++
                 [{ id := new_id, status := SwapStatus.PENDING, created_at := now,
                    requester_id := requester_id, responder_id := their.owner_id,
                    my_slot_id := my.id, their_slot_id := their.id }] }) := by
  unfold create_swap_request
  rw [hmy, htheir]
  dsimp only
  rw [if_neg (not_not_intro hown), if_neg hnotself, if_neg (not_not_intro hoffered)]


/-- Successful `respond_to_swap_request` with `accept = true`,
evaluated: statuses, owner swap and ledger rewrite as in the source. -/
theorem respond_success_accept (db : DB) (rid : Nat) (uid : Nat) (r : SwapRequest)
    (hr : get_swap_request db rid = some r)
    (hresp : r.responder_id = uid) (hpend : r.status = SwapStatus.PENDING) :
    respond_to_swap_request db rid true uid =
      .ok ({ r with status := SwapStatus.ACCEPTED },
           { db with
               events := setSlot (setSlot (setSlot (setSlot db.events
                     r.their_slot_id (fun e => { e with owner_id := r.requester_id }))
                   r.my_slot_id (fun e => { e with owner_id := r.responder_id }))
                 r.their_slot_id (fun e => { e with status := EventStatus.BUSY }))
                 r.my_slot_id (fun e => { e with status := EventStatus.BUSY })
               swap_requests := db.swap_requests.map
                 (fun q => if q.id == rid then { r with status := SwapStatus.ACCEPTED } else q) }) := by
  unfold respond_to_swap_request
  rw [hr]
  dsimp only
  rw [if_neg (not_not_intro hresp), if_neg (not_not_intro hpend)]
  simp

/-- Successful `respond_to_swap_request` with `accept = false`,
evaluated: both slots revert to `SWAPPABLE`, owners untouched. -/
theorem respond_success_reject (db : DB) (rid : Nat) (uid : Nat) (r : SwapRequest)
    (hr : get_swap_request db rid = some r)
    (hresp : r.responder_id = uid) (hpend : r.status = SwapStatus.PENDING) :
    respond_to_swap_request db rid false uid =
      .ok ({ r with status := SwapStatus.REJECTED },
           { db with
               events := setSlot (setSlot db.events
                   r.their_slot_id (fun e => { e with status := EventStatus.SWAPPABLE }))
                 r.my_slot_id (fun e => { e with status := EventStatus.SWAPPABLE })
               swap_requests := db.swap_requests.map
                 (fun q => if q.id == rid then { r with status := SwapStatus.REJECTED } else q) }) := by
  unfold respond_to_swap_request
  rw [hr]
  dsimp only
  rw [if_neg (not_not_intro hresp), if_neg (not_not_intro hpend)]
  simp

/-- C4: `create_swap_request` never checks the status of the
initiator's own slot: whenever both slots resolve, `my_slot` is owned
by the requester, `their_slot` is owned by someone else and is
`SWAPPABLE`, the call succeeds — whatever `my_slot.status` is —
creating a `PENDING` request whose responder is the current owner of
`their_slot` and setting both slots to `SWAP_PENDING` in the same
operation. -/
theorem C4_propose_ignores_my_slot_status (db : DB) (rd : SwapRequestCreate)
    (requester_id new_id : Nat) (now : Int) (my their : Event)
    (hmy : get_event db rd.my_slot_id = some my)
    (htheir : get_event db rd.their_slot_id = some their)
    (hown : my.owner_id = requester_id)
    (hnotself : their.owner_id ≠ requester_id)
    (hoffered : their.status = EventStatus.SWAPPABLE) :
    ∃ req db2,
      create_swap_request db rd requester_id new_id now = .ok (req, db2) ∧
      req.status = SwapStatus.PENDING ∧
      req.requester_id = requester_id ∧
      req.responder_id = their.owner_id ∧
      req.my_slot_id = rd.my_slot_id ∧
      req.their_slot_id = rd.their_slot_id ∧
      req ∈ db2.swap_requests ∧
      get_event db2 rd.my_slot_id = some { my with status := EventStatus.SWAP_PENDING } ∧
      get_event db2 rd.their_slot_id = some { their with status := EventStatus.SWAP_PENDING } := by
  have hmyid : my.id = rd.my_slot_id := by simpa using List.find?_some hmy
  have htheirid : their.id = rd.their_slot_id := by simpa using List.find?_some htheir
  have hne : rd.my_slot_id ≠ rd.their_slot_id := by
    intro hcontra
    rw [hcontra] at hmy
    rw [hmy] at htheir
    have heq : my = their := by injection htheir
    rw [← heq] at hnotself
    exact hnotself hown
  refine ⟨_, _,
    create_swap_success db rd requester_id new_id now my their hmy htheir hown hnotself hoffered,
    rfl, rfl, rfl, hmyid, htheirid, by simp, ?_, ?_⟩
  · unfold get_event at hmy ⊢
    dsimp only
    rw [find?_setSlot _ _ _ (setStatus_id EventStatus.SWAP_PENDING),
      find?_setSlot _ _ _ (setStatus_id EventStatus.SWAP_PENDING), hmy]
    have h2 : ¬ (my.id = their.id) := by
      rw [hmyid, htheirid]
      exact hne
    simp [h2]
  · unfold get_event at htheir ⊢
    dsimp only
    rw [find?_setSlot _ _ _ (setStatus_id EventStatus.SWAP_PENDING),
      find?_setSlot _ _ _ (setStatus_id EventStatus.SWAP_PENDING), htheir]
    have h2 : ¬ (their.id = my.id) := by
      rw [hmyid, htheirid]
      exact fun hcontra => hne hcontra.symm
    simp [h2]

/-- C5: responding to a pending proposal as its target: accepting sets
the proposal to `ACCEPTED`, transfers `their_slot` to the requester and
`my_slot` to the responder and sets both to `BUSY` (Locked); rejecting
sets the proposal to `REJECTED` and both slots to `SWAPPABLE` (Offered)
with the owner of each slot unchanged. -/
theorem C5_respond_effects (db : DB) (rid : Nat) (uid : Nat) (r : SwapRequest)
    (hr : get_swap_request db rid = some r)
    (hresp : r.responder_id = uid) (hpend : r.status = SwapStatus.PENDING)
    (hslots : r.my_slot_id ≠ r.their_slot_id)
    (ms ts : Event)
    (hms : get_event db r.my_slot_id = some ms)
    (hts : get_event db r.their_slot_id = some ts) :
    (∃ req2 db2, respond_to_swap_request db rid true uid = .ok (req2, db2) ∧
      req2 = { r with status := SwapStatus.ACCEPTED } ∧
      get_swap_request db2 rid = some req2 ∧
      get_event db2 r.their_slot_id =
        some { ts with owner_id := r.requester_id, status := EventStatus.BUSY } ∧
      get_event db2 r.my_slot_id =
        some { ms with owner_id := r.responder_id, status := EventStatus.BUSY }) ∧
    (∃ req2 db2, respond_to_swap_request db rid false uid = .ok (req2, db2) ∧
      req2 = { r with status := SwapStatus.REJECTED } ∧
      get_swap_request db2 rid = some req2 ∧
      get_event db2 r.their_slot_id = some { ts with status := EventStatus.SWAPPABLE } ∧
      get_event db2 r.my_slot_id = some { ms with status := EventStatus.SWAPPABLE }) := by
  have hmsid : ms.id = r.my_slot_id := by simpa using List.find?_some hms
  have htsid : ts.id = r.their_slot_id := by simpa using List.find?_some hts
  have hrid : (r.id == rid) = true := by simpa using List.find?_some hr
  have hms1 : (ms.id == r.my_slot_id) = true := by simp [hmsid]
  have hms2 : (ms.id == r.their_slot_id) = false := by
    simp [hmsid]
    exact hslots
  have hts1 : (ts.id == r.their_slot_id) = true := by simp [htsid]
  have hts2 : (ts.id == r.my_slot_id) = false := by
    simp [htsid]
    exact fun hcontra => hslots hcontra.symm
  have hgr : ∀ (s : SwapStatus),
      (db.swap_requests.map (fun q => if q.id == rid then { r with status := s } else q)).find?
          (fun q => q.id == rid)
        = some { r with status := s } := by
    intro s
    have hg : ∀ q2 : SwapRequest,
        ((fun q => if q.id == rid then { r with status := s } else q) q2).id = q2.id := by
      intro q2
      by_cases hc : (q2.id == rid) = true
      · have hq2 : q2.id = rid := by simpa using hc
        have hr2 : r.id = rid := by simpa using hrid
        simp [hc, hr2, hq2]
      · simp [hc]
    rw [find?_key_map SwapRequest.id _ _ hg rid]
    unfold get_swap_request at hr
    rw [hr]
    have hrid2 : r.id = rid := by simpa using hrid
    simp [hrid2]
  constructor
  · refine ⟨_, _, respond_success_accept db rid uid r hr hresp hpend, rfl, ?_, ?_, ?_⟩
    · unfold get_swap_request
      dsimp only
      exact hgr SwapStatus.ACCEPTED
    · unfold get_event at hts ⊢
      dsimp only
      rw [find?_setSlot _ _ _ (setStatus_id EventStatus.BUSY),
        find?_setSlot _ _ _ (setStatus_id EventStatus.BUSY),
        find?_setSlot _ _ _ (setOwner_id r.responder_id),
        find?_setSlot _ _ _ (setOwner_id r.requester_id), hts]
      have hts3 : ¬ (r.their_slot_id = r.my_slot_id) := fun hcontra => hslots hcontra.symm
      simp [htsid, hts3]
    · unfold get_event at hms ⊢
      dsimp only
      rw [find?_setSlot _ _ _ (setStatus_id EventStatus.BUSY),
        find?_setSlot _ _ _ (setStatus_id EventStatus.BUSY),
        find?_setSlot _ _ _ (setOwner_id r.responder_id),
        find?_setSlot _ _ _ (setOwner_id r.requester_id), hms]
      simp [hmsid, hslots]
  · refine ⟨_, _, respond_success_reject db rid uid r hr hresp hpend, rfl, ?_, ?_, ?_⟩
    · unfold get_swap_request
      dsimp only
      exact hgr SwapStatus.REJECTED
    · unfold get_event at hts ⊢
      dsimp only
      rw [find?_setSlot _ _ _ (setStatus_id EventStatus.SWAPPABLE),
        find?_setSlot _ _ _ (setStatus_id EventStatus.SWAPPABLE), hts]
      have hts3 : ¬ (r.their_slot_id = r.my_slot_id) := fun hcontra => hslots hcontra.symm
      simp [htsid, hts3]
    · unfold get_event at hms ⊢
      dsimp only
      rw [find?_setSlot _ _ _ (setStatus_id EventStatus.SWAPPABLE),
        find?_setSlot _ _ _ (setStatus_id EventStatus.SWAPPABLE), hms]
      simp [hmsid, hslots]


def w4db : DB :=
  { users := [{ id := 1, name := "A", email := "a" }, { id := 2, name := "B", email := "b" }]
    events := [{ id := 1, title := "S1", start_time := 0, end_time := 1,
                 status := EventStatus.BUSY, owner_id := 1 },
               { id := 2, title := "S2", start_time := 2, end_time := 3,
                 status := EventStatus.SWAPPABLE, owner_id := 2 }]
    swap_requests := [] }

theorem C4_witness :
    ∃ req db2,
      create_swap_request w4db { my_slot_id := 1, their_slot_id := 2 } 1 10 7 = .ok (req, db2) ∧
      req.status = SwapStatus.PENDING ∧
      req.requester_id = 1 ∧
      req.responder_id = ({ id := 2, title := "S2", start_time := 2, end_time := 3,
                            status := EventStatus.SWAPPABLE, owner_id := 2 } : Event).owner_id ∧
      req.my_slot_id = ({ my_slot_id := 1, their_slot_id := 2 } : SwapRequestCreate).my_slot_id ∧
      req.their_slot_id =
        ({ my_slot_id := 1, their_slot_id := 2 } : SwapRequestCreate).their_slot_id ∧
      req ∈ db2.swap_requests ∧
      get_event db2 ({ my_slot_id := 1, their_slot_id := 2 } : SwapRequestCreate).my_slot_id =
        some { ({ id := 1, title := "S1", start_time := 0, end_time := 1,
                  status := EventStatus.BUSY, owner_id := 1 } : Event) with
               status := EventStatus.SWAP_PENDING } ∧
      get_event db2 ({ my_slot_id := 1, their_slot_id := 2 } : SwapRequestCreate).their_slot_id =
        some { ({ id := 2, title := "S2", start_time := 2, end_time := 3,
                  status := EventStatus.SWAPPABLE, owner_id := 2 } : Event) with
               status := EventStatus.SWAP_PENDING } :=
  C4_propose_ignores_my_slot_status w4db { my_slot_id := 1, their_slot_id := 2 } 1 10 7
    { id := 1, title := "S1", start_time := 0, end_time := 1,
      status := EventStatus.BUSY, owner_id := 1 }
    { id := 2, title := "S2", start_time := 2, end_time := 3,
      status := EventStatus.SWAPPABLE, owner_id := 2 }
    (by decide) (by decide) (by decide) (by decide) (by decide)

def w5db : DB :=
  { users := [{ id := 1, name := "A", email := "a" }, { id := 2, name := "B", email := "b" }]
    events := [{ id := 1, title := "S1", start_time := 0, end_time := 1,
                 status := EventStatus.SWAP_PENDING, owner_id := 1 },
               { id := 2, title := "S2", start_time := 2, end_time := 3,
                 status := EventStatus.SWAP_PENDING, owner_id := 2 }]
    swap_requests := [{ id := 10, status := SwapStatus.PENDING, created_at := 0,
                        requester_id := 1, responder_id := 2,
                        my_slot_id := 1, their_slot_id := 2 }] }

def w5req : SwapRequest :=
  { id := 10, status := SwapStatus.PENDING, created_at := 0,
    requester_id := 1, responder_id := 2, my_slot_id := 1, their_slot_id := 2 }

theorem C5_witness :
    (∃ req2 db2, respond_to_swap_request w5db 10 true 2 = .ok (req2, db2) ∧
      req2 = { w5req with status := SwapStatus.ACCEPTED } ∧
      get_swap_request db2 10 = some req2 ∧
      get_event db2 w5req.their_slot_id =
        some { ({ id := 2, title := "S2", start_time := 2, end_time := 3,
                  status := EventStatus.SWAP_PENDING, owner_id := 2 } : Event) with
               owner_id := w5req.requester_id, status := EventStatus.BUSY } ∧
      get_event db2 w5req.my_slot_id =
        some { ({ id := 1, title := "S1", start_time := 0, end_time := 1,
                  status := EventStatus.SWAP_PENDING, owner_id := 1 } : Event) with
               owner_id := w5req.responder_id, status := EventStatus.BUSY }) ∧
    (∃ req2 db2, respond_to_swap_request w5db 10 false 2 = .ok (req2, db2) ∧
      req2 = { w5req with status := SwapStatus.REJECTED } ∧
      get_swap_request db2 10 = some req2 ∧
      get_event db2 w5req.their_slot_id =
        some { ({ id := 2, title := "S2", start_time := 2, end_time := 3,
                  status := EventStatus.SWAP_PENDING, owner_id := 2 } : Event) with
               status := EventStatus.SWAPPABLE } ∧
      get_event db2 w5req.my_slot_id =
        some { ({ id := 1, title := "S1", start_time := 0, end_time := 1,
                  status := EventStatus.SWAP_PENDING, owner_id := 1 } : Event) with
               status := EventStatus.SWAPPABLE }) :=
  C5_respond_effects w5db 10 2 w5req (by decide) (by decide) (by decide) (by decide)
    { id := 1, title := "S1", start_time := 0, end_time := 1,
      status := EventStatus.SWAP_PENDING, owner_id := 1 }
    { id := 2, title := "S2", start_time := 2, end_time := 3,
      status := EventStatus.SWAP_PENDING, owner_id := 2 }
    (by decide) (by decide)



/-- An event update leaves the event's id unchanged. -/
theorem applyEventUpdate_id (eu : EventUpdate) :
    ∀ e : Event, (applyEventUpdate e eu).id = e.id :=
  fun _ => rfl

def c2db : DB :=
  { users := [{ id := 1, name := "A", email := "a" }]
    events := [{ id := 1, title := "S1", start_time := 0, end_time := 1,
                 status := EventStatus.SWAP_PENDING, owner_id := 1 }]
    swap_requests := [] }

/-- C2 fails on the code: `update_event` checks only existence and
ownership, so an owner edit of a slot in `SWAP_PENDING` (Reserved)
status goes through and changes the slot's fields. -/
theorem C2_counterexample :
    get_event c2db 1 = some { id := 1, title := "S1", start_time := 0, end_time := 1,
                              status := EventStatus.SWAP_PENDING, owner_id := 1 } ∧
    get_event (applyOp c2db (.updateEvent 1 { title := some "S1x" } 1)) 1 =
      some { id := 1, title := "S1x", start_time := 0, end_time := 1,
             status := EventStatus.SWAP_PENDING, owner_id := 1 } ∧
    applyOp c2db (.updateEvent 1 { title := some "S1x" } 1) ≠ c2db := by
  decide

/-- C2 amended: slots are mutated only by the five operations, and an
owner edit (`update_event`) applies the requested field updates to any
slot the caller owns regardless of its current status — including
while it is `SWAP_PENDING` (Reserved); only existence and ownership are
checked. -/
theorem C2_amended_update_ignores_status (db : DB) (eid : Nat) (eu : EventUpdate)
    (uid : Nat) (e : Event)
    (hfind : get_event db eid = some e) (hown : e.owner_id = uid) :
    update_event db eid eu uid =
      .ok (some (applyEventUpdate e eu),
           { db with events := setSlot db.events eid (fun q => applyEventUpdate q eu) }) ∧
    get_event (applyOp db (.updateEvent eid eu uid)) eid = some (applyEventUpdate e eu) := by
  have h1 : update_event db eid eu uid =
      .ok (some (applyEventUpdate e eu),
           { db with events := setSlot db.events eid (fun q => applyEventUpdate q eu) }) := by
    unfold update_event
    rw [hfind]
    dsimp only
    rw [if_neg (not_not_intro hown)]
  refine ⟨h1, ?_⟩
  have heid : e.id = eid := by simpa using List.find?_some hfind
  simp only [applyOp]
  rw [h1]
  unfold get_event at hfind ⊢
  dsimp only
  rw [find?_setSlot _ _ _ (applyEventUpdate_id eu), hfind]
  simp [heid]

def c2e : Event :=
  { id := 1, title := "S1", start_time := 0, end_time := 1,
    status := EventStatus.SWAP_PENDING, owner_id := 1 }

def c2eu : EventUpdate :=
  { title := some "S1y" }

theorem C2_witness :
    update_event c2db 1 c2eu 1 =
      .ok (some (applyEventUpdate c2e c2eu),
           { c2db with events := setSlot c2db.events 1 (fun q => applyEventUpdate q c2eu) }) ∧
    get_event (applyOp c2db (.updateEvent 1 c2eu 1)) 1 = some (applyEventUpdate c2e c2eu) :=
  C2_amended_update_ignores_status c2db 1 c2eu 1 c2e (by decide) (by decide)

/-- C3: a slot referenced by a pending proposal is never removed by
`delete_event`: the non-null foreign keys of `models.SwapRequest` make
PostgreSQL reject the delete at commit, so the state is unchanged and
no successful deletion of the slot record is possible. -/
theorem C3_no_delete_while_referenced (db : DB) (event_id user_id : Nat) (r : SwapRequest)
    (hr : r ∈ db.swap_requests) (hpend : r.status = SwapStatus.PENDING)
    (href : r.my_slot_id = event_id ∨ r.their_slot_id = event_id) :
    applyOp db (.deleteEvent event_id user_id) = db ∧
    get_event (applyOp db (.deleteEvent event_id user_id)) event_id = get_event db event_id ∧
    (∀ e db2, delete_event db event_id user_id = .ok (some e, db2) → False) := by
  have hrefb : eventReferenced db event_id = true := by
    unfold eventReferenced
    rw [List.any_eq_true]
    refine ⟨r, hr, ?_⟩
    rcases href with h | h <;> simp [h]
  have hdel : ∀ x db2, delete_event db event_id user_id = .ok (x, db2) →
      x = none ∧ db2 = db := by
    intro x db2 h
    rcases delete_event_ok_shape db event_id user_id x db2 h with
      ⟨hx, hdb, -⟩ | ⟨e, -, -, hfalse, -, -, -, -⟩
    · exact ⟨hx, hdb⟩
    · rw [hrefb] at hfalse
      simp at hfalse
  have happ : applyOp db (.deleteEvent event_id user_id) = db := by
    simp only [applyOp]
    split
    · rename_i x db2 heq
      exact (hdel x db2 heq).2
    · rfl
  refine ⟨happ, by rw [happ], ?_⟩
  intro e db2 h
  exact Option.noConfusion (hdel (some e) db2 h).1

theorem C3_witness :
    applyOp w5db (.deleteEvent 1 1) = w5db ∧
    get_event (applyOp w5db (.deleteEvent 1 1)) 1 = get_event w5db 1 :=
  ⟨(C3_no_delete_while_referenced w5db 1 1 w5req (by decide) (by decide)
      (Or.inl (by decide))).1,
   (C3_no_delete_while_referenced w5db 1 1 w5req (by decide) (by decide)
      (Or.inl (by decide))).2.1⟩


/-- C8: for every acting party, `get_marketplace_slots` returns exactly
the slots whose status is `SWAPPABLE` (Offered) and whose owner is not
the acting party, each paired with its owner's display name; in
particular it never contains the party's own slots nor a `BUSY` or
`SWAP_PENDING` slot.  It is read-only by type (no `DB` is produced).
The hypothesis that every slot's owner row exists reflects the non-null
foreign key `events.owner_id`. -/
theorem C8_marketplace (db : DB) (user_id : Nat)
    (howner : ∀ e ∈ db.events, (get_user db e.owner_id).isSome) :
    (∀ ms, ms ∈ get_marketplace_slots db user_id ↔
      ∃ e ∈ db.events, e.status = EventStatus.SWAPPABLE ∧ e.owner_id ≠ user_id ∧
        ∃ u, get_user db e.owner_id = some u ∧ ms = mkMarketplaceSlot e u) ∧
    (∀ e ∈ db.events, e.status = EventStatus.SWAPPABLE → e.owner_id ≠ user_id →
      ∃ u, get_user db e.owner_id = some u ∧
        mkMarketplaceSlot e u ∈ get_marketplace_slots db user_id) := by
  have hmem : ∀ ms, ms ∈ get_marketplace_slots db user_id ↔
      ∃ e ∈ db.events, e.status = EventStatus.SWAPPABLE ∧ e.owner_id ≠ user_id ∧
        ∃ u, get_user db e.owner_id = some u ∧ ms = mkMarketplaceSlot e u := by
    intro ms
    unfold get_marketplace_slots
    simp only [List.mem_filterMap, List.mem_filter, Bool.and_eq_true, beq_iff_eq,
      bne_iff_ne, Option.map_eq_some']
    constructor
    · rintro ⟨e, ⟨⟨he, hstat, hne⟩, u, hu, hmk⟩⟩
      exact ⟨e, he, hstat, hne, u, hu, hmk.symm⟩
    · rintro ⟨e, he, hstat, hne, u, hu, hmk⟩
      exact ⟨e, ⟨⟨he, hstat, hne⟩, u, hu, hmk.symm⟩⟩
  refine ⟨hmem, ?_⟩
  intro e he hstat hne
  obtain ⟨u, hu⟩ := Option.isSome_iff_exists.mp (howner e he)
  exact ⟨u, hu, (hmem (mkMarketplaceSlot e u)).mpr ⟨e, he, hstat, hne, u, hu, rfl⟩⟩

def w8db : DB :=
  { users := [{ id := 1, name := "A", email := "a" }, { id := 2, name := "B", email := "b" }]
    events := [{ id := 1, title := "S1", start_time := 0, end_time := 1,
                 status := EventStatus.SWAPPABLE, owner_id := 2 }]
    swap_requests := [] }

theorem C8_witness :
    ({ id := 1, title := "S1", start_time := 0, end_time := 1,
       status := EventStatus.SWAPPABLE, owner_id := 2, owner_name := "B" } : MarketplaceSlot)
      ∈ get_marketplace_slots w8db 1 := by
  obtain ⟨u, hu, hmem⟩ :=
    (C8_marketplace w8db 1 (by decide)).2
      { id := 1, title := "S1", start_time := 0, end_time := 1,
        status := EventStatus.SWAPPABLE, owner_id := 2 }
      (by decide) (by decide) (by decide)
  have hu2 : u = { id := 2, name := "B", email := "b" } := by
    have := hu
    simp [get_user, w8db] at this
    exact this.symm
  rw [hu2] at hmem
  exact hmem


/-- C10: every newly created slot has status Locked (BUSY):
`EventCreate` carries only title, start and end, so the caller cannot
choose a status, `models.Event.status` defaults to `BUSY`, and the new
slot is therefore absent from every user's marketplace listing until
its owner later edits it. -/
theorem C10_new_slot_busy (db : DB) (ec : EventCreate) (user_id new_id : Nat)
    (hfresh : ∀ e ∈ db.events, e.id ≠ new_id) :
    (create_event db ec user_id new_id).1.status = EventStatus.BUSY ∧
    ∀ viewer : Nat, ∀ ms ∈ get_marketplace_slots (create_event db ec user_id new_id).2 viewer,
      ms.id ≠ new_id := by
  refine ⟨rfl, ?_⟩
  intro viewer ms hms
  unfold get_marketplace_slots create_event at hms
  simp only [List.mem_filterMap, List.mem_filter, List.mem_append, List.mem_singleton,
    Option.map_eq_some', Bool.and_eq_true, beq_iff_eq, bne_iff_ne] at hms
  obtain ⟨e, ⟨⟨he | he, hstat, hne⟩, u, hu, hmk⟩⟩ := hms
  · intro h
    have hid : ms.id = e.id := by
      rw [← hmk]
      rfl
    exact hfresh e he (by rw [← hid, h])
  · subst he
    simp at hstat

def w10db : DB :=
  { users := [{ id := 1, name := "A", email := "a" }]
    events := []
    swap_requests := [] }

theorem C10_witness :
    (create_event w10db { title := "T", start_time := 0, end_time := 1 } 1 1).1.status
      = EventStatus.BUSY ∧
    ∀ ms ∈ get_marketplace_slots
        (create_event w10db { title := "T", start_time := 0, end_time := 1 } 1 1).2 2,
      ms.id ≠ 1 :=
  ⟨(C10_new_slot_busy w10db { title := "T", start_time := 0, end_time := 1 } 1 1 (by decide)).1,
   (C10_new_slot_busy w10db { title := "T", start_time := 0, end_time := 1 } 1 1 (by decide)).2 2⟩



/-- When every detail record resolves, the resolved list is exactly
the pointwise image of `detailsOf`. -/
theorem detailsList_map (db : DB) : ∀ (rs : List SwapRequest) (ds : List SwapRequestDetails),
    detailsList db rs = some ds → rs.map (detailsOf db) = ds.map some := by
  intro rs
  induction rs with
  | nil =>
    intro ds h
    unfold detailsList at h
    injection h with h2
    rw [← h2]
    rfl
  | cons r rs ih =>
    intro ds h
    unfold detailsList at h
    cases hd : detailsOf db r <;> rw [hd] at h
    · cases htl : detailsList db rs <;> rw [htl] at h <;> exact Option.noConfusion h
    · cases htl : detailsList db rs <;> rw [htl] at h
      · exact Option.noConfusion h
      · injection h with h2
        rw [← h2]
        simp [hd, ih _ htl]

/-- The descending comparison is transitive. -/
theorem createdDesc_trans : ∀ a b c : SwapRequest,
    createdDesc a b = true → createdDesc b c = true → createdDesc a c = true := by
  intro a b c hab hbc
  simp only [createdDesc, decide_eq_true_eq] at hab hbc ⊢
  exact le_trans hbc hab

/-- The descending comparison is total. -/
theorem createdDesc_total : ∀ a b : SwapRequest,
    (createdDesc a b || createdDesc b a) = true := by
  intro a b
  simp only [createdDesc, Bool.or_eq_true, decide_eq_true_eq]
  exact le_total b.created_at a.created_at

/-- C9: `get_incoming_requests` resolves exactly the requests whose
responder is the given user and `get_outgoing_requests` exactly those
whose requester is the given user, each list ordered by creation time
descending (newest first), and each entry the full denormalized
`SwapRequestDetails` of its request (both parties' names and both
slots' id/title/start/end). -/
theorem C9_request_lists (db : DB) (user_id : Nat)
    (l_in l_out : List SwapRequestDetails)
    (hin : get_incoming_requests db user_id = some l_in)
    (hout : get_outgoing_requests db user_id = some l_out) :
    (∃ rs : List SwapRequest,
      rs.Perm (db.swap_requests.filter (fun r => r.responder_id == user_id)) ∧
      List.Pairwise (fun a b => b.created_at ≤ a.created_at) rs ∧
      rs.map (detailsOf db) = l_in.map some) ∧
    (∃ rs : List SwapRequest,
      rs.Perm (db.swap_requests.filter (fun r => r.requester_id == user_id)) ∧
      List.Pairwise (fun a b => b.created_at ≤ a.created_at) rs ∧
      rs.map (detailsOf db) = l_out.map some) := by
  unfold get_incoming_requests at hin
  unfold get_outgoing_requests at hout
  constructor
  · refine ⟨_, List.mergeSort_perm _ createdDesc, ?_, detailsList_map db _ _ hin⟩
    exact (@List.sorted_mergeSort SwapRequest createdDesc createdDesc_trans createdDesc_total
      (db.swap_requests.filter (fun r => r.responder_id == user_id))).imp
      (fun h => by simpa [createdDesc] using h)
  · refine ⟨_, List.mergeSort_perm _ createdDesc, ?_, detailsList_map db _ _ hout⟩
    exact (@List.sorted_mergeSort SwapRequest createdDesc createdDesc_trans createdDesc_total
      (db.swap_requests.filter (fun r => r.requester_id == user_id))).imp
      (fun h => by simpa [createdDesc] using h)

def w9db : DB :=
  { users := [{ id := 1, name := "A", email := "a" }, { id := 2, name := "B", email := "b" }]
    events := [{ id := 1, title := "S1", start_time := 0, end_time := 1,
                 status := EventStatus.SWAP_PENDING, owner_id := 1 },
               { id := 2, title := "S2", start_time := 2, end_time := 3,
                 status := EventStatus.SWAP_PENDING, owner_id := 2 }]
    swap_requests := [{ id := 20, status := SwapStatus.PENDING, created_at := 5,
                        requester_id := 1, responder_id := 2,
                        my_slot_id := 1, their_slot_id := 2 },
                      { id := 21, status := SwapStatus.REJECTED, created_at := 9,
                        requester_id := 1, responder_id := 2,
                        my_slot_id := 1, their_slot_id := 2 }] }

def w9d20 : SwapRequestDetails :=
  { id := 20, status := SwapStatus.PENDING, created_at := 5,
    requester_id := 1, requester_name := "A", responder_id := 2, responder_name := "B",
    my_slot_id := 1, my_slot_title := "S1", my_slot_start := 0, my_slot_end := 1,
    their_slot_id := 2, their_slot_title := "S2", their_slot_start := 2, their_slot_end := 3 }

def w9d21 : SwapRequestDetails :=
  { id := 21, status := SwapStatus.REJECTED, created_at := 9,
    requester_id := 1, requester_name := "A", responder_id := 2, responder_name := "B",
    my_slot_id := 1, my_slot_title := "S1", my_slot_start := 0, my_slot_end := 1,
    their_slot_id := 2, their_slot_title := "S2", their_slot_start := 2, their_slot_end := 3 }

theorem C9_witness :
    (∃ rs : List SwapRequest,
      rs.Perm (w9db.swap_requests.filter (fun r => r.responder_id == 2)) ∧
      List.Pairwise (fun a b => b.created_at ≤ a.created_at) rs ∧
      rs.map (detailsOf w9db) = [w9d21, w9d20].map some) ∧
    (∃ rs : List SwapRequest,
      rs.Perm (w9db.swap_requests.filter (fun r => r.requester_id == 2)) ∧
      List.Pairwise (fun a b => b.created_at ≤ a.created_at) rs ∧
      rs.map (detailsOf w9db) = ([] : List SwapRequestDetails).map some) :=
  C9_request_lists w9db 2 [w9d21, w9d20] []
    (by simp [get_incoming_requests, w9db, detailsList, detailsOf, get_user, get_event,
      createdDesc, List.mergeSort, List.merge, w9d20, w9d21])
    (by simp [get_outgoing_requests, w9db, detailsList, List.mergeSort])



/-- Pointwise view of the two status writes of `create_swap_request`:
a slot matching either id is set to `SWAP_PENDING`. -/
def reserveTransform (my_id their_id : Nat) (e : Event) : Event :=
  if e.id == my_id || e.id == their_id then
    { e with status := EventStatus.SWAP_PENDING }
  else e

/-- The two sequential `setSlot` writes of `create_swap_request` equal
one map of `reserveTransform`. -/
theorem reserve_events_as_map (my_id their_id : Nat) (l : List Event) :
    setSlot (setSlot l my_id (fun e => { e with status := EventStatus.SWAP_PENDING }))
        their_id (fun e => { e with status := EventStatus.SWAP_PENDING })
      = l.map (reserveTransform my_id their_id) := by
  unfold setSlot
  rw [List.map_map]
  apply List.map_congr_left
  intro e _
  simp only [Function.comp]
  by_cases h1 : (e.id == my_id) = true
  all_goals by_cases h2 : (e.id == their_id) = true
  all_goals simp [reserveTransform, h1, h2]

/-- Pointwise view of the slot writes of `respond_to_swap_request`:
on accept a matching slot gets the new owner (the requester's slot
going to the responder winning when a request references one slot
twice, as in the source's mutation order) and status `BUSY`; on
reject a matching slot is set to `SWAPPABLE`. -/
def respondTransform (r : SwapRequest) (acc : Bool) (e : Event) : Event :=
  if acc then
    if e.id == r.my_slot_id then
      { e with owner_id := r.responder_id, status := EventStatus.BUSY }
    else if e.id == r.their_slot_id then
      { e with owner_id := r.requester_id, status := EventStatus.BUSY }
    else e
  else
    if e.id == r.my_slot_id || e.id == r.their_slot_id then
      { e with status := EventStatus.SWAPPABLE }
    else e

/-- The accept-branch `setSlot` chain of `respond_to_swap_request`
equals one map of `respondTransform r true`. -/
theorem respond_events_as_map_accept (r : SwapRequest) (l : List Event) :
    setSlot (setSlot (setSlot (setSlot l
          r.their_slot_id (fun e => { e with owner_id := r.requester_id }))
        r.my_slot_id (fun e => { e with owner_id := r.responder_id }))
      r.their_slot_id (fun e => { e with status := EventStatus.BUSY }))
      r.my_slot_id (fun e => { e with status := EventStatus.BUSY })
      = l.map (respondTransform r true) := by
  unfold setSlot
  rw [List.map_map, List.map_map, List.map_map]
  apply List.map_congr_left
  intro e _
  simp only [Function.comp]
  by_cases h1 : (e.id == r.my_slot_id) = true
  all_goals by_cases h2 : (e.id == r.their_slot_id) = true
  all_goals simp [respondTransform, h1, h2]

/-- The reject-branch `setSlot` chain of `respond_to_swap_request`
equals one map of `respondTransform r false`. -/
theorem respond_events_as_map_reject (r : SwapRequest) (l : List Event) :
    setSlot (setSlot l
        r.their_slot_id (fun e => { e with status := EventStatus.SWAPPABLE }))
      r.my_slot_id (fun e => { e with status := EventStatus.SWAPPABLE })
      = l.map (respondTransform r false) := by
  unfold setSlot
  rw [List.map_map]
  apply List.map_congr_left
  intro e _
  simp only [Function.comp]
  by_cases h1 : (e.id == r.my_slot_id) = true
  all_goals by_cases h2 : (e.id == r.their_slot_id) = true
  all_goals simp [respondTransform, h1, h2]


/-- Counting pending references after rewriting the ledger at one id:
replacing the unique row with a given id by a row the predicate
rejects removes exactly that row's contribution. -/
theorem countP_replace (p : SwapRequest → Bool) (x : SwapRequest) (hpx : p x = false) :
    ∀ (l : List SwapRequest) (rid : Nat) (r : SwapRequest),
      (l.map SwapRequest.id).Nodup →
      l.find? (fun q => q.id == rid) = some r →
      (l.map (fun q => if q.id == rid then x else q)).countP p + (if p r = true then 1 else 0)
        = l.countP p := by
  intro l
  induction l with
  | nil =>
    intro rid r _ hfind
    exact Option.noConfusion hfind
  | cons a l ih =>
    intro rid r hnd hfind
    rw [List.map_cons, List.nodup_cons] at hnd
    by_cases ha : (a.id == rid) = true
    · rw [@List.find?_cons_of_pos _ (fun q => q.id == rid) a l ha] at hfind
      have hra : a = r := by injection hfind
      subst hra
      have hmap : l.map (fun q => if q.id == rid then x else q) = l := by
        have hpt : ∀ q ∈ l, (if q.id == rid then x else q) = q := by
          intro q hq
          have hqne : ¬ (q.id == rid) = true := by
            intro hq2
            have h1 : a.id = rid := by simpa using ha
            have h2 : q.id = rid := by simpa using hq2
            exact hnd.1 (List.mem_map.mpr ⟨q, hq, by rw [h2, h1]⟩)
          simp [hqne]
        calc l.map (fun q => if q.id == rid then x else q) = l.map (fun q => q) :=
              List.map_congr_left hpt
          _ = l := by simp
      rw [List.map_cons, if_pos ha, List.countP_cons, List.countP_cons, hmap, hpx]
      simp
    · rw [@List.find?_cons_of_neg _ (fun q => q.id == rid) a l ha] at hfind
      have ihh := ih rid r hnd.2 hfind
      rw [List.map_cons, if_neg ha, List.countP_cons, List.countP_cons]
      omega


/-- A transformed slot keeps its id (reserve form). -/
theorem reserveTransform_id (a b : Nat) (e : Event) : (reserveTransform a b e).id = e.id := by
  unfold reserveTransform
  by_cases h : (e.id == a || e.id == b) = true <;> simp [h]

/-- A slot matching either side of a new proposal comes out Reserved. -/
theorem reserveTransform_ref (a b : Nat) (e : Event) (h : e.id = a ∨ e.id = b) :
    reserveTransform a b e = { e with status := EventStatus.SWAP_PENDING } := by
  unfold reserveTransform
  rcases h with h | h <;> simp [h]

/-- A slot matching neither side of a new proposal is untouched. -/
theorem reserveTransform_unref (a b : Nat) (e : Event)
    (h1 : ¬ e.id = a) (h2 : ¬ e.id = b) : reserveTransform a b e = e := by
  unfold reserveTransform
  simp [h1, h2]

/-- A transformed slot keeps its id (respond form). -/
theorem respondTransform_id (r : SwapRequest) (acc : Bool) (e : Event) :
    (respondTransform r acc e).id = e.id := by
  unfold respondTransform
  cases acc <;> by_cases h1 : (e.id == r.my_slot_id) = true <;>
    by_cases h2 : (e.id == r.their_slot_id) = true <;> simp [h1, h2]

/-- A slot matching either side of the answered proposal comes out
`BUSY` on accept and `SWAPPABLE` on reject. -/
theorem respondTransform_status_ref (r : SwapRequest) (acc : Bool) (e : Event)
    (h : e.id = r.my_slot_id ∨ e.id = r.their_slot_id) :
    (respondTransform r acc e).status =
      if acc then EventStatus.BUSY else EventStatus.SWAPPABLE := by
  unfold respondTransform
  rcases h with h | h <;> cases acc <;> by_cases h2 : (e.id == r.their_slot_id) = true <;>
    simp [h, h2, apply_ite Event.status]

/-- A slot matching neither side of the answered proposal is
untouched. -/
theorem respondTransform_unref (r : SwapRequest) (acc : Bool) (e : Event)
    (h1 : ¬ e.id = r.my_slot_id) (h2 : ¬ e.id = r.their_slot_id) :
    respondTransform r acc e = e := by
  unfold respondTransform
  cases acc <;> simp [h1, h2]

/-- C1 amended: from a state satisfying the slot/proposal invariant
(with the ledger's primary keys distinct), `respond_to_swap_request`
always preserves the invariant, and `create_swap_request` preserves it
provided the initiator's own slot is not already `SWAP_PENDING`.  The
original claim, which also quantified over owner edits and over
proposals offering an already-reserved `my_slot`, is refuted by the
counterexample. -/
theorem C1_amended_preservation (db : DB) (hinv : slotInvariant db)
    (hnodup : (db.swap_requests.map SwapRequest.id).Nodup) :
    (∀ rid acc uid, slotInvariant (applyOp db (.respondSwap rid acc uid))) ∧
    (∀ (rd : SwapRequestCreate) (requester_id new_id : Nat) (now : Int),
      (∀ ms, get_event db rd.my_slot_id = some ms → ms.status ≠ EventStatus.SWAP_PENDING) →
      slotInvariant (applyOp db (.createSwap rd requester_id new_id now))) := by
  constructor
  · intro rid acc uid
    simp only [applyOp]
    split
    · rename_i x db2 heq
      obtain ⟨r, hr, hresp, hpend, hx, hu, hev, hs⟩ := respond_ok_shape db rid acc uid x db2 heq
      have hrmem : r ∈ db.swap_requests := List.mem_of_find?_eq_some hr
      have hpx : (x.status == SwapStatus.PENDING) = false := by
        cases acc <;> simp [hx]
      unfold get_swap_request at hr
      have hev2 : db2.events = db.events.map (respondTransform r acc) := by
        rw [hev]
        cases acc
        · rw [if_neg (by simp)]
          exact respond_events_as_map_reject r db.events
        · rw [if_pos rfl]
          exact respond_events_as_map_accept r db.events
      intro e2 he2
      rw [hev2] at he2
      obtain ⟨e0, he0, rfl⟩ := List.mem_map.mp he2
      unfold pendingRefCount
      rw [hs, respondTransform_id]
      have hcnt := countP_replace
        (fun q => q.status == SwapStatus.PENDING &&
          (q.my_slot_id == e0.id || q.their_slot_id == e0.id))
        x (by simp [hpx]) db.swap_requests rid r hnodup hr
      have hold := hinv e0 he0
      unfold pendingRefCount at hold
      by_cases hB : e0.id = r.my_slot_id
      · rw [respondTransform_status_ref r acc e0 (Or.inl hB),
          show (if (if acc then EventStatus.BUSY else EventStatus.SWAPPABLE)
              = EventStatus.SWAP_PENDING then 1 else 0) = 0 from by cases acc <;> rfl]
        have hpr : (r.status == SwapStatus.PENDING &&
            (r.my_slot_id == e0.id || r.their_slot_id == e0.id)) = true := by
          simp [hpend, hB]
        have hck : 0 < db.swap_requests.countP
            (fun q => q.status == SwapStatus.PENDING &&
              (q.my_slot_id == e0.id || q.their_slot_id == e0.id)) :=
          List.countP_pos.mpr ⟨r, hrmem, hpr⟩
        simp only [hpr] at hcnt
        rw [if_pos trivial] at hcnt
        by_cases hst : e0.status = EventStatus.SWAP_PENDING
        · rw [if_pos hst] at hold
          omega
        · rw [if_neg hst] at hold
          omega
      · by_cases hA : e0.id = r.their_slot_id
        · rw [respondTransform_status_ref r acc e0 (Or.inr hA),
            show (if (if acc then EventStatus.BUSY else EventStatus.SWAPPABLE)
                = EventStatus.SWAP_PENDING then 1 else 0) = 0 from by cases acc <;> rfl]
          have hpr : (r.status == SwapStatus.PENDING &&
              (r.my_slot_id == e0.id || r.their_slot_id == e0.id)) = true := by
            simp [hpend, hA]
          have hck : 0 < db.swap_requests.countP
              (fun q => q.status == SwapStatus.PENDING &&
                (q.my_slot_id == e0.id || q.their_slot_id == e0.id)) :=
            List.countP_pos.mpr ⟨r, hrmem, hpr⟩
          simp only [hpr] at hcnt
          rw [if_pos trivial] at hcnt
          by_cases hst : e0.status = EventStatus.SWAP_PENDING
          · rw [if_pos hst] at hold
            omega
          · rw [if_neg hst] at hold
            omega
        · rw [respondTransform_unref r acc e0 hB hA]
          have hpr : (r.status == SwapStatus.PENDING &&
              (r.my_slot_id == e0.id || r.their_slot_id == e0.id)) = false := by
            simp [hpend]
            exact ⟨fun hcontra => hB hcontra.symm, fun hcontra => hA hcontra.symm⟩
          simp only [hpr] at hcnt
          rw [if_neg Bool.false_ne_true] at hcnt
          by_cases hst : e0.status = EventStatus.SWAP_PENDING
          · rw [if_pos hst] at hold ⊢
            omega
          · rw [if_neg hst] at hold ⊢
            omega
    · exact hinv
  · intro rd requester_id new_id now hms
    simp only [applyOp]
    split
    · rename_i x db2 heq
      obtain ⟨my, their, hmy, htheir, hown, hnself, hstat, hx, hu, hev, hs⟩ :=
        create_swap_ok_shape db rd requester_id new_id now x db2 heq
      have hmymem : my ∈ db.events := List.mem_of_find?_eq_some hmy
      have htheirmem : their ∈ db.events := List.mem_of_find?_eq_some htheir
      have hmyid : my.id = rd.my_slot_id := by simpa using List.find?_some hmy
      have htheirid : their.id = rd.their_slot_id := by simpa using List.find?_some htheir
      have hmspend : my.status ≠ EventStatus.SWAP_PENDING := hms my hmy
      have htheirpend : their.status ≠ EventStatus.SWAP_PENDING := by
        rw [hstat]
        intro hcontra
        exact EventStatus.noConfusion hcontra
      rw [reserve_events_as_map] at hev
      intro e2 he2
      rw [hev] at he2
      obtain ⟨e0, he0, rfl⟩ := List.mem_map.mp he2
      unfold pendingRefCount
      rw [hs, List.countP_append, reserveTransform_id]
      have hold := hinv e0 he0
      unfold pendingRefCount at hold
      by_cases hA : e0.id = my.id
      · rw [reserveTransform_ref my.id their.id e0 (Or.inl hA),
          show ({ e0 with status := EventStatus.SWAP_PENDING } : Event).status
            = EventStatus.SWAP_PENDING from rfl,
          if_pos rfl]
        have h1 : db.swap_requests.countP
            (fun q => q.status == SwapStatus.PENDING &&
              (q.my_slot_id == e0.id || q.their_slot_id == e0.id)) = 0 := by
          rw [hA]
          have h2 := hinv my hmymem
          unfold pendingRefCount at h2
          rw [if_neg hmspend] at h2
          exact h2
        have h2 : ([x].countP
            (fun q => q.status == SwapStatus.PENDING &&
              (q.my_slot_id == e0.id || q.their_slot_id == e0.id))) = 1 := by
          rw [List.countP_cons]
          simp [hx, hA]
        rw [h1, h2]
      · by_cases hB : e0.id = their.id
        · rw [reserveTransform_ref my.id their.id e0 (Or.inr hB),
            show ({ e0 with status := EventStatus.SWAP_PENDING } : Event).status
              = EventStatus.SWAP_PENDING from rfl,
            if_pos rfl]
          have h1 : db.swap_requests.countP
              (fun q => q.status == SwapStatus.PENDING &&
                (q.my_slot_id == e0.id || q.their_slot_id == e0.id)) = 0 := by
            rw [hB]
            have h2 := hinv their htheirmem
            unfold pendingRefCount at h2
            rw [if_neg htheirpend] at h2
            exact h2
          have h2 : ([x].countP
              (fun q => q.status == SwapStatus.PENDING &&
                (q.my_slot_id == e0.id || q.their_slot_id == e0.id))) = 1 := by
            rw [List.countP_cons]
            simp [hx, hB]
          rw [h1, h2]
        · rw [reserveTransform_unref my.id their.id e0 hA hB]
          have h2 : ([x].countP
              (fun q => q.status == SwapStatus.PENDING &&
                (q.my_slot_id == e0.id || q.their_slot_id == e0.id))) = 0 := by
            rw [List.countP_cons]
            have hxm : (x.my_slot_id == e0.id) = false := by
              simp [hx]
              exact fun hcontra => hA hcontra.symm
            have hxt : (x.their_slot_id == e0.id) = false := by
              simp [hx]
              exact fun hcontra => hB hcontra.symm
            simp [hxm, hxt]
          rw [h2, Nat.add_zero]
          exact hold
    · exact hinv


def c1dbA : DB :=
  { users := [{ id := 1, name := "A", email := "a" }]
    events := [{ id := 1, title := "S1", start_time := 0, end_time := 1,
                 status := EventStatus.BUSY, owner_id := 1 }]
    swap_requests := [] }

def c1dbB : DB :=
  { users := [{ id := 1, name := "A", email := "a" }, { id := 2, name := "B", email := "b" },
              { id := 3, name := "C", email := "c" }]
    events := [{ id := 1, title := "S1", start_time := 0, end_time := 1,
                 status := EventStatus.BUSY, owner_id := 1 },
               { id := 2, title := "S2", start_time := 2, end_time := 3,
                 status := EventStatus.SWAPPABLE, owner_id := 2 },
               { id := 3, title := "S3", start_time := 4, end_time := 5,
                 status := EventStatus.SWAPPABLE, owner_id := 3 }]
    swap_requests := [] }

/-- C1 fails on the code, in two ways, both starting from states
satisfying the invariant: an owner edit may set a slot to
`SWAP_PENDING` with no pending proposal referencing it, and — because
`create_swap_request` never checks `my_slot.status` — a second
proposal offering an already-reserved `my_slot` leaves that slot
referenced by two simultaneously pending proposals. -/
theorem C1_counterexample :
    (slotInvariant c1dbA ∧
     ¬ slotInvariant
        (applyOp c1dbA (.updateEvent 1 { status := some EventStatus.SWAP_PENDING } 1))) ∧
    (slotInvariant c1dbB ∧
     slotInvariant (applyOp c1dbB (.createSwap { my_slot_id := 1, their_slot_id := 2 } 1 10 0)) ∧
     ¬ slotInvariant
        (applyOp (applyOp c1dbB (.createSwap { my_slot_id := 1, their_slot_id := 2 } 1 10 0))
          (.createSwap { my_slot_id := 1, their_slot_id := 3 } 1 11 1))) := by
  decide

def w1db : DB :=
  { users := [{ id := 1, name := "A", email := "a" }, { id := 2, name := "B", email := "b" }]
    events := [{ id := 1, title := "S1", start_time := 0, end_time := 1,
                 status := EventStatus.BUSY, owner_id := 1 },
               { id := 2, title := "S2", start_time := 2, end_time := 3,
                 status := EventStatus.SWAPPABLE, owner_id := 2 }]
    swap_requests := [] }

theorem C1_witness :
    slotInvariant (applyOp w1db (.respondSwap 10 true 2)) ∧
    slotInvariant (applyOp w1db (.createSwap { my_slot_id := 1, their_slot_id := 2 } 1 10 0)) :=
  ⟨(C1_amended_preservation w1db (by decide) (by decide)).1 10 true 2,
   (C1_amended_preservation w1db (by decide) (by decide)).2
     { my_slot_id := 1, their_slot_id := 2 } 1 10 0
     (by
       intro ms hmsw
       have hms1 : ms = { id := 1, title := "S1", start_time := 0, end_time := 1,
                          status := EventStatus.BUSY, owner_id := 1 } := by
         have hms2 := hmsw
         simp [get_event, w1db] at hms2
         exact hms2.symm
       rw [hms1]
       decide)⟩


end SlotSwapper
